import Mathlib

/-!
Verification development for the feed-to-JSON script
`script/snb_sarh_to_json.py`.

The script is embedded shallowly:

* XML element trees (`xml.etree.ElementTree`) become the inductive type
  `XTree`; `Element.iter()` becomes `XTree.iter`, the depth-first
  pre-order listing of a tree's elements (the element itself included).
* The pure helper functions `localname`, `find_first_desc_text`,
  `find_item_by_rate_name`, `find_observation_value` and
  `parse_date_to_yyyy_mm_dd` are translated one-to-one.
* Python library behaviour used by the script is modelled explicitly:
  `str.strip` (`pyStrip`), `datetime.fromisoformat` restricted to the
  date component (`fromisoformat`), and `float(str)` (`pyFloat`,
  returning exact rationals instead of rounded binary64 values).
* The effectful `main` becomes the pure `runMain`, a function of the
  fetch/parse outcome and of a possible write-time error; its result
  records the exit code, the error-stream line and whether the output
  file write was attempted or completed.
-/

set_option autoImplicit false

/-- An XML element as read by `xml.etree.ElementTree`: a (possibly
namespace-qualified) tag, the text node directly after the opening tag
(`Element.text`, possibly absent), and the child elements in document
order. -/
inductive XTree where
  | mk (tag : String) (text : Option String) (children : List XTree)

mutual

/-- Decidable equality of elements (by hand: `deriving` does not handle
the nested occurrence of `List XTree`). -/
def xtreeDecEq : (a b : XTree) → Decidable (a = b)
  | .mk t1 x1 c1, .mk t2 x2 c2 =>
    match decEq t1 t2 with
    | isFalse h => isFalse (by intro he; cases he; exact h rfl)
    | isTrue h1 =>
      match decEq x1 x2 with
      | isFalse h => isFalse (by intro he; cases he; exact h rfl)
      | isTrue h2 =>
        match xtreeListDecEq c1 c2 with
        | isFalse h => isFalse (by intro he; cases he; exact h rfl)
        | isTrue h3 => isTrue (by rw [h1, h2, h3])

/-- Decidable equality of element lists. -/
def xtreeListDecEq : (a b : List XTree) → Decidable (a = b)
  | [], [] => isTrue rfl
  | [], _ :: _ => isFalse (by intro h; cases h)
  | _ :: _, [] => isFalse (by intro h; cases h)
  | a :: as, b :: bs =>
    match xtreeDecEq a b with
    | isFalse h => isFalse (by intro he; cases he; exact h rfl)
    | isTrue h1 =>
      match xtreeListDecEq as bs with
      | isFalse h => isFalse (by intro he; cases he; exact h rfl)
      | isTrue h2 => isTrue (by rw [h1, h2])

end

instance : DecidableEq XTree := xtreeDecEq

/-- The tag of an element. -/
def XTree.tag : XTree → String
  | .mk t _ _ => t

/-- The `text` attribute of an element (`None` in Python becomes `none`). -/
def XTree.text : XTree → Option String
  | .mk _ tx _ => tx

/-- The child elements of an element. -/
def XTree.children : XTree → List XTree
  | .mk _ _ cs => cs

mutual

/-- `Element.iter()`: the element itself followed by all of its
descendants, in depth-first pre-order document order. -/
def XTree.iter : XTree → List XTree
  | .mk tg tx cs => .mk tg tx cs :: iterForest cs

/-- `iter` mapped over a forest, concatenated in order. -/
def iterForest : List XTree → List XTree
  | [] => []
  | t :: ts => XTree.iter t ++ iterForest ts

end

/-- Characters treated as whitespace by Python's `str.strip()`
(ASCII portion, which is all the feed data uses). -/
def isPySpace (c : Char) : Bool :=
  c = ' ' || c = '\t' || c = '\n' || c = '\r' || c = '\x0b' || c = '\x0c'

/-- `str.strip()` on a character list: drop whitespace from both ends. -/
def pyStripList (cs : List Char) : List Char :=
  ((cs.dropWhile isPySpace).reverse.dropWhile isPySpace).reverse

/-- `str.strip()` on strings. -/
def pyStrip (s : String) : String :=
  String.mk (pyStripList s.toList)

/-- Drop everything up to and including the first occurrence of `c`
(the list is returned unchanged-empty if `c` does not occur; callers
guard on occurrence). This is `str.split(c, 1)[-1]` for an occurring
separator. -/
def dropThroughFirst (c : Char) : List Char → List Char
  | [] => []
  | x :: xs => if x = c then xs else dropThroughFirst c xs

/-- `localname(tag)` from the script:
`tag.split("\x7d", 1)[-1] if tag and "\x7d" in tag else (tag or "")`.
The argument is optional because the Python code defends against `None`. -/
def localname : Option String → String
  | none => ""
  | some s => if '\x7d' ∈ s.toList then String.mk (dropThroughFirst '\x7d' s.toList) else s

/-- The fixed feed URL `XML_URL`. -/
def XML_URL : String := "https://www.snb.ch/public/en/rss/interestRates"

/-- The fixed target rate name `TARGET_RATE_NAME`. -/
def TARGET_RATE_NAME : String := "SARH"

/-- Loop body of `find_first_desc_text`, over the pre-order listing of
the parent: return the first element whose local tag is `wanted` and
whose stripped text is non-empty; elements with the wanted tag but
empty text are skipped and the scan continues. -/
def ffdtGo (wanted : String) : List XTree → Option String
  | [] => none
  | el :: rest =>
    if localname (some el.tag) = wanted then
      (let txt := pyStrip (el.text.getD "")
       if txt = "" then ffdtGo wanted rest else some txt)
    else ffdtGo wanted rest

/-- `find_first_desc_text(parent, wanted_local)` from the script. -/
def find_first_desc_text (parent : XTree) (wanted_local : String) : Option String :=
  ffdtGo wanted_local parent.iter

/-- The inner loop of `find_item_by_rate_name`: does `el` contain (in
`el.iter()`) an element with local tag `rateName` whose stripped text
equals `rate_name`? -/
def itemMatches (el : XTree) (rate_name : String) : Bool :=
  el.iter.any fun rn =>
    decide (localname (some rn.tag) = "rateName") && decide (pyStrip (rn.text.getD "") = rate_name)

/-- The full matching condition of `find_item_by_rate_name`: local tag
`item` and a matching `rateName` descendant. -/
def isMatchingItem (el : XTree) (rate_name : String) : Bool :=
  decide (localname (some el.tag) = "item") && itemMatches el rate_name

/-- `find_item_by_rate_name(root, rate_name)` from the script: the first
element of `root.iter()` whose local tag is `item` and which contains a
matching `rateName` descendant. -/
def find_item_by_rate_name (root : XTree) (rate_name : String) : Option XTree :=
  root.iter.find? fun el => isMatchingItem el rate_name

/-- Loop body of `find_observation_value`, over the pre-order listing of
the item: at each element with local tag `observation`, look for the
first `value` descendant; if one exists the function returns there (its
stripped text, or `none` when that text is empty), otherwise the scan
continues with the remaining elements. -/
def fovGo : List XTree → Option String
  | [] => none
  | obs :: rest =>
    if localname (some obs.tag) = "observation" then
      match obs.iter.find? (fun v => decide (localname (some v.tag) = "value")) with
      | some v => (let txt := pyStrip (v.text.getD ""); if txt = "" then none else some txt)
      | none => fovGo rest
    else fovGo rest

/-- `find_observation_value(item)` from the script. -/
def find_observation_value (item : XTree) : Option String :=
  fovGo item.iter

/-- Numeric value of a decimal digit string (most significant first);
helper for the date and float models. -/
def digitsToNat (ds : List Char) : Nat :=
  ds.foldl (fun a c => 10 * a + (c.toNat - 48)) 0

/-- Read exactly two decimal digits, returning their value and the rest. -/
def read2 : List Char → Option (Nat × List Char)
  | a :: b :: rest =>
    if a.isDigit ∧ b.isDigit then some (10 * (a.toNat - 48) + (b.toNat - 48), rest) else none
  | _ => none

/-- Gregorian leap-year test, as used by `datetime`. -/
def isLeap (y : Nat) : Bool :=
  decide (y % 4 = 0) && (decide (y % 100 ≠ 0) || decide (y % 400 = 0))

/-- Days in a month, as validated by the `datetime` constructor. -/
def daysInMonth (y m : Nat) : Nat :=
  if m = 2 then (if isLeap y then 29 else 28)
  else if m = 4 ∨ m = 6 ∨ m = 9 ∨ m = 11 then 30 else 31

/-- Fractional-second tail of a UTC-offset part: empty, or a dot and
exactly six digits. -/
def tzSecTail : List Char → Bool
  | [] => true
  | '.' :: r =>
    (let ds := r.takeWhile Char.isDigit
     decide (ds.length = 6) && decide (r.drop ds.length = []))
  | _ => false

/-- Seconds tail of a UTC-offset part: empty, or a colon, two digits
(at most 59) and an optional fractional part. -/
def tzTail : List Char → Bool
  | [] => true
  | ':' :: r =>
    (match read2 r with
     | some (ss, r2) => decide (ss ≤ 59) && tzSecTail r2
     | none => false)
  | _ => false

/-- Body of a UTC-offset part after the sign: `HH:MM[:SS[.ffffff]]`. -/
def parseTZBody (rest : List Char) : Bool :=
  match read2 rest with
  | some (hh, ':' :: r2) =>
    (match read2 r2 with
     | some (mm, r3) => decide (hh ≤ 23) && decide (mm ≤ 59) && tzTail r3
     | none => false)
  | _ => false

/-- A UTC-offset part: a sign followed by `HH:MM[:SS[.ffffff]]`. -/
def parseTZ : List Char → Bool
  | '+' :: rest => parseTZBody rest
  | '-' :: rest => parseTZBody rest
  | _ => false

/-- Time tail after the seconds: empty, a fractional part of exactly
three or six digits (then an optional offset), or an offset. -/
def timeTail2 : List Char → Bool
  | [] => true
  | '.' :: r =>
    (let ds := r.takeWhile Char.isDigit
     (decide (ds.length = 3) || decide (ds.length = 6)) &&
       (let r2 := r.drop ds.length
        r2.isEmpty || parseTZ r2))
  | r => parseTZ r

/-- Time tail after the minutes: empty, `:SS` and its tail, or an offset. -/
def timeTail1 : List Char → Bool
  | [] => true
  | ':' :: r =>
    (match read2 r with
     | some (ss, r2) => decide (ss ≤ 59) && timeTail2 r2
     | none => false)
  | r => parseTZ r

/-- Time tail after the hours: empty, `:MM` and its tail, or an offset. -/
def timeTail0 : List Char → Bool
  | [] => true
  | ':' :: r =>
    (match read2 r with
     | some (mm, r2) => decide (mm ≤ 59) && timeTail1 r2
     | none => false)
  | r => parseTZ r

/-- The time part of an isoformat string: `HH[:MM[:SS[.fff[fff]]]]`
with an optional UTC offset. -/
def parseTimeStr (cs : List Char) : Bool :=
  match read2 cs with
  | some (hh, r) => decide (hh ≤ 23) && timeTail0 r
  | none => false

/-- Model of CPython's `datetime.fromisoformat` (the strict CPython 3.10
grammar, which is what the script's replacement of `Z` by `+00:00` is
written for), composed with `.date().isoformat()` — the script only ever
uses the date component, which for a valid input is exactly the first
ten characters.  Accepted inputs: `YYYY-MM-DD` (digits validated as a
real calendar date with year at least 1), optionally followed by one
arbitrary separator character and a time part
`HH[:MM[:SS[.fff[fff]]]][(+|-)HH:MM[:SS[.ffffff]]]` with the field
bounds enforced by the `datetime`/`timezone` constructors.  Invalid
inputs give `none` (the `ValueError` of the Python original). -/
def fromisoformat (s : String) : Option String :=
  match s.toList with
  | y1 :: y2 :: y3 :: y4 :: '-' :: m1 :: m2 :: '-' :: d1 :: d2 :: rest =>
    if y1.isDigit ∧ y2.isDigit ∧ y3.isDigit ∧ y4.isDigit ∧
       m1.isDigit ∧ m2.isDigit ∧ d1.isDigit ∧ d2.isDigit then
      (let y := digitsToNat [y1, y2, y3, y4]
       let m := digitsToNat [m1, m2]
       let d := digitsToNat [d1, d2]
       if 1 ≤ y ∧ 1 ≤ m ∧ m ≤ 12 ∧ 1 ≤ d ∧ d ≤ daysInMonth y m then
         match rest with
         | [] => some (String.mk [y1, y2, y3, y4, '-', m1, m2, '-', d1, d2])
         | _sep :: tcs =>
           if parseTimeStr tcs then
             some (String.mk [y1, y2, y3, y4, '-', m1, m2, '-', d1, d2])
           else none
       else none)
    else none
  | _ => none

/-- The fast-path shape test of `parse_date_to_yyyy_mm_dd`:
`len(s) >= 10 and s[4] == "-" and s[7] == "-"`. -/
def fastShape (cs : List Char) : Prop :=
  10 ≤ cs.length ∧ cs.get? 4 = some '-' ∧ cs.get? 7 = some '-'

instance fastShapeDecidable (cs : List Char) : Decidable (fastShape cs) := by
  unfold fastShape; infer_instance

/-- `s.replace("Z", "+00:00")` at character-list level (the pattern is a
single character, so substring replacement is character replacement). -/
def zReplace (cs : List Char) : List Char :=
  cs.foldr (fun c acc => if c = 'Z' then '+' :: '0' :: '0' :: ':' :: '0' :: '0' :: acc else c :: acc) []

/-- `parse_date_to_yyyy_mm_dd(s)` from the script: strip, reject empty,
take the first ten characters when the stripped string already looks
like `YYYY-MM-DD...`, and otherwise replace every `Z` by `+00:00` and
run the isoformat parser, keeping the date portion. -/
def parse_date_to_yyyy_mm_dd (s0 : String) : Except String String :=
  let cs := pyStripList s0.toList
  if cs = [] then .error "Empty dc:date"
  else if fastShape cs then .ok (String.mk (cs.take 10))
  else
    let cs2 := zReplace cs
    match fromisoformat (String.mk cs2) with
    | some d => .ok d
    | none => .error ("Invalid isoformat string: " ++ String.mk cs2)

/-- The value of Python's `float(str)` without binary64 rounding: either
an exact rational, an infinity, or a NaN (each with the parsed sign). -/
inductive PyFloat where
  | finite (q : ℚ)
  | infinite (neg : Bool)
  | nan (neg : Bool)
deriving DecidableEq

/-- Consume a Python `digitpart` — `digit (["_"] digit)*` — returning
the digits read (underscores removed) and the rest; `none` when an
underscore is not surrounded by digits, which makes the whole literal
invalid in Python. The accumulator holds the digits read so far in
reverse. -/
def chompDP : List Char → List Char → Option (List Char × List Char)
  | acc, [] => some (acc.reverse, [])
  | acc, '_' :: d :: rest => if d.isDigit then chompDP (d :: acc) rest else none
  | _acc, ['_'] => none
  | acc, c :: rest => if c.isDigit then chompDP (c :: acc) rest else some (acc.reverse, c :: rest)

/-- A `digitpart` at the head of the input: fails unless the input
starts with a digit. -/
def chompDigitpart (cs : List Char) : Option (List Char × List Char) :=
  match cs with
  | c :: _ => if c.isDigit then chompDP [] cs else none
  | [] => none

/-- Finish a decimal literal: after the integer digits `ipart` and
fraction digits `fpart`, the rest must be empty or an exponent
`("e"|"E") [sign] digitpart`; the exact rational value is
`ipart.fpart × 10^exp`. -/
def parseExp (ipart fpart rest : List Char) : Option ℚ :=
  let mant : ℤ := (digitsToNat (ipart ++ fpart) : ℤ)
  let fl : ℤ := fpart.length
  match rest with
  | [] => some (mkRat (mant * 10 ^ (0 - fl).toNat) (10 ^ (fl - 0).toNat))
  | e :: rest2 =>
    if e = 'e' ∨ e = 'E' then
      (let sr := match rest2 with
        | '+' :: r => (false, r)
        | '-' :: r => (true, r)
        | r => (false, r)
       match chompDigitpart sr.2 with
       | some (ds, []) =>
         (let ev : ℤ := digitsToNat ds
          let t : ℤ := (if sr.1 then -ev else ev) - fl
          some (mkRat (mant * 10 ^ t.toNat) (10 ^ (-t).toNat)))
       | _ => none)
    else none

/-- An unsigned decimal float literal:
`digitpart ["." [digitpart]] [exponent]` or `"." digitpart [exponent]`. -/
def parseDecimal (cs : List Char) : Option ℚ :=
  match chompDigitpart cs with
  | some (ipart, r1) =>
    (match r1 with
     | '.' :: r2 =>
       (match chompDigitpart r2 with
        | some (fpart, r3) => parseExp ipart fpart r3
        | none => parseExp ipart [] r2)
     | _ => parseExp ipart [] r1)
  | none =>
    match cs with
    | '.' :: r2 =>
      (match chompDigitpart r2 with
       | some (fpart, r3) => parseExp [] fpart r3
       | none => none)
    | _ => none

/-- Model of Python's `float(str)` (ASCII inputs): strip whitespace,
read an optional sign, accept `inf`/`infinity`/`nan` case-insensitively,
and otherwise parse a decimal literal (underscores between digits
allowed); every other string raises `ValueError`, modelled as `none`. -/
def pyFloat (s : String) : Option PyFloat :=
  let cs0 := pyStripList s.toList
  let sr : Bool × List Char := match cs0 with
    | '+' :: r => (false, r)
    | '-' :: r => (true, r)
    | r => (false, r)
  let low := sr.2.map Char.toLower
  if low = "inf".toList ∨ low = "infinity".toList then some (.infinite sr.1)
  else if low = "nan".toList then some (.nan sr.1)
  else
    match parseDecimal sr.2 with
    | some q => some (.finite (if sr.1 then -q else q))
    | none => none

/-- `s.replace(",", ".")` at character level (single-character pattern). -/
def commaToDot (s : String) : String :=
  String.mk (s.toList.map fun c => if c = ',' then '.' else c)

/-- The value-normalization step of `main`:
`float(value_txt.replace(",", "."))`. -/
def value_normalize (value_txt : String) : Option PyFloat :=
  pyFloat (commaToDot value_txt)

/-- The JSON payload assembled by `main` on success. -/
structure Payload where
  generated_at_utc : String
  source : String
  rateName : String
  date : String
  value : PyFloat
deriving DecidableEq

/-- Outcome of one run of `main`: success (exit 0, file written in
full), a failure in a stage before the file write (exit 1, the write
never attempted, so an existing output file is untouched), or a failure
while writing (exit 1, write attempted). -/
inductive RunOutcome where
  | success (payload : Payload)
  | failedBeforeWrite (msg : String)
  | failedAtWrite (msg : String)
deriving DecidableEq

/-- The process exit code of an outcome (`main`'s return value, passed
to `SystemExit`). -/
def exitCode : RunOutcome → Nat
  | .success _ => 0
  | .failedBeforeWrite _ => 1
  | .failedAtWrite _ => 1

/-- The line printed to the error stream, when any: the top-level
handler prints the failure marker and the exception message. -/
def stderrLine : RunOutcome → Option String
  | .success _ => none
  | .failedBeforeWrite m => some ("❌ Error: " ++ m)
  | .failedAtWrite m => some ("❌ Error: " ++ m)

/-- Whether the run reached the file write at all. -/
def writeAttempted : RunOutcome → Bool
  | .success _ => true
  | .failedBeforeWrite _ => false
  | .failedAtWrite _ => true

/-- Whether the output file was written in full. -/
def fileWritten : RunOutcome → Bool
  | .success _ => true
  | .failedBeforeWrite _ => false
  | .failedAtWrite _ => false

/-- The extraction stages of `main` on a parsed tree, in the script's
order: locate the item, extract and normalize the date, extract the
value text inside an observation, normalize the value.  Each failure is
the message of the exception `main` raises there. -/
def pipeline (root : XTree) : Except String (String × PyFloat) :=
  match find_item_by_rate_name root TARGET_RATE_NAME with
  | none => .error ("Could not find <item> containing rateName=" ++ TARGET_RATE_NAME)
  | some item =>
    match find_first_desc_text item "date" with
    | none => .error "dc:date not found in matched item"
    | some dc_date =>
      match parse_date_to_yyyy_mm_dd dc_date with
      | .error m => .error m
      | .ok date_iso =>
        match find_observation_value item with
        | none => .error "cb:observation/cb:value not found in matched item"
        | some value_txt =>
          match value_normalize value_txt with
          | none => .error ("could not convert string to float: " ++ commaToDot value_txt)
          | some value_num => .ok (date_iso, value_num)

/-- `main()` from the script as a pure function of its environment: the
combined fetch/parse outcome (a network or XML error, or the parsed
tree), the timestamp taken at write time, and an optional error from
the filesystem write.  The single top-level `except` maps every stage
failure to exit code 1. -/
def runMain (now : String) (fetched : Except String XTree) (writeError : Option String) : RunOutcome :=
  match fetched with
  | .error m => .failedBeforeWrite m
  | .ok root =>
    match pipeline root with
    | .error m => .failedBeforeWrite m
    | .ok (date_iso, value_num) =>
      match writeError with
      | some m => .failedAtWrite m
      | none => .success ⟨now, XML_URL, TARGET_RATE_NAME, date_iso, value_num⟩

/-- The candidate that one element contributes to the search of
`find_observation_value`: for an `observation`, the first `value`
element inside it (if any); for anything else, nothing. -/
def obsFirstValue (obs : XTree) : Option XTree :=
  if localname (some obs.tag) = "observation" then
    obs.iter.find? (fun v => decide (localname (some v.tag) = "value"))
  else none

/-- The stripped text of a `value` element when non-empty. -/
def stripNonempty (v : XTree) : Option String :=
  let t := pyStrip (v.text.getD "")
  if t = "" then none else some t

/-- The candidate that one element contributes to the search of
`find_first_desc_text`: its stripped text when the local tag is the
wanted one and that text is non-empty. -/
def tagText (wanted : String) (el : XTree) : Option String :=
  if localname (some el.tag) = wanted then
    (let t := pyStrip (el.text.getD "")
     if t = "" then none else some t)
  else none

/-- All extraction stages of `main` succeed on this tree: an item is
found, a non-empty date is found and normalizes, and a value text is
found and parses as a float. -/
def stagesOkTree (root : XTree) : Prop :=
  ∃ it, find_item_by_rate_name root TARGET_RATE_NAME = some it ∧
    ∃ d, find_first_desc_text it "date" = some d ∧
      (∃ di, parse_date_to_yyyy_mm_dd d = Except.ok di) ∧
      ∃ v, find_observation_value it = some v ∧
        ∃ q, value_normalize v = some q

/-! ## Concrete feed trees used as evaluation inputs -/

/-- A feed tree whose only `rateName` text is the lower-case `sarh`:
used to show matching is case-sensitive. -/
def lowerCaseTree : XTree :=
  .mk "rss" none [.mk "channel" none [
    .mk "item" none [
      .mk "observation" none [
        .mk "rateName" (some "sarh") [],
        .mk "value" (some "1,00") []]]]]

/-- The second item of `c2Root`: the first one in document order that
carries the target rate name. -/
def c2Item : XTree :=
  .mk "item" none [
    .mk "rateName" (some "SARH") [],
    .mk "observation" none [.mk "value" (some "0,96") []]]

/-- A feed with two items; only the second carries `SARH`. -/
def c2Root : XTree :=
  .mk "rss" none [.mk "channel" none [
    .mk "item" none [.mk "rateName" (some "OTHER") []],
    c2Item]]

/-- First observation of `cexItemC1`: no `value` descendant at all. -/
def cexObs1 : XTree :=
  .mk "observation" none [.mk "rateName" (some "OTHER") []]

/-- An item whose first observation has no value; a later observation
carries the value `7`. -/
def cexItemC1 : XTree :=
  .mk "item" none [cexObs1, .mk "observation" none [.mk "value" (some " 7 ") []]]

/-- An item without any observation-scoped value: used to show the run
fails at the value stage. -/
def c1wItem : XTree :=
  .mk "item" none [
    .mk "rateName" (some "SARH") [],
    .mk "date" (some "2024-03-01T00:00:00Z") [],
    .mk "observation" none []]

/-- A feed around `c1wItem`. -/
def c1wRoot : XTree :=
  .mk "rss" none [.mk "channel" none [c1wItem]]

/-- First `date` element of `cexItemC4`: whitespace-only text. -/
def cexDate1 : XTree := .mk "date" (some "   ") []

/-- An item whose first `date` descendant has empty (stripped) text and
whose second `date` descendant reads `2024-01-02`. -/
def cexItemC4 : XTree :=
  .mk "item" none [cexDate1, .mk "date" (some " 2024-01-02 ") []]

/-- An item carrying `SARH` but no `date` element anywhere. -/
def c4wItem : XTree :=
  .mk "item" none [
    .mk "observation" none [
      .mk "rateName" (some "SARH") [],
      .mk "value" (some "1,00") []]]

/-- A feed around `c4wItem`. -/
def c4wRoot : XTree :=
  .mk "rss" none [.mk "channel" none [c4wItem]]

/-- A complete well-formed feed whose date text `2024-99-99` is not a
calendar date but has the fast-path shape. -/
def c10Tree : XTree :=
  .mk "rss" none [.mk "channel" none [
    .mk "item" none [
      .mk "title" (some "SARON") [],
      .mk "date" (some " 2024-99-99 ") [],
      .mk "observation" none [
        .mk "rateName" (some "SARH") [],
        .mk "value" (some "1,50") []]]]]

/-! ## General helper lemmas -/

/-- `List.find?` returns the first match: the list splits at the result,
with everything before it failing the predicate. -/
theorem find_first_split {α : Type} (p : α → Bool) :
    ∀ (l : List α) (x : α), l.find? p = some x →
      ∃ l1 l2, l = l1 ++ x :: l2 ∧ p x = true ∧ ∀ y ∈ l1, p y = false := by
  intro l
  induction l with
  | nil => intro x h; simp [List.find?] at h
  | cons a t ih =>
    intro x h
    cases hpa : p a with
    | true =>
      rw [List.find?_cons_of_pos _ hpa] at h
      cases h
      exact ⟨[], t, rfl, hpa, by simp⟩
    | false =>
      rw [List.find?_cons_of_neg _ (by simp [hpa])] at h
      obtain ⟨l1, l2, hsplit, hx, hpre⟩ := ih x h
      refine ⟨a :: l1, l2, by simp [hsplit], hx, ?_⟩
      intro y hy
      rcases List.mem_cons.mp hy with hy | hy
      · rw [hy]; exact hpa
      · exact hpre y hy

/-- Dropping through the first occurrence of `c` in `p ++ c :: q`, where
`p` is free of `c`, yields exactly `q`. -/
theorem dropThroughFirst_append (c : Char) :
    ∀ (p q : List Char), c ∉ p → dropThroughFirst c (p ++ c :: q) = q := by
  intro p
  induction p with
  | nil => intro q _; simp [dropThroughFirst]
  | cons x xs ih =>
    intro q hc
    have hx : x ≠ c := fun h => hc (h ▸ List.mem_cons_self x xs)
    simp only [List.cons_append, dropThroughFirst, if_neg hx]
    exact ih q (fun h => hc (List.mem_cons_of_mem x h))

/-! ## Claim C3 -/

/-- Claim C3, counterexample.  The claim says that for a tag containing
`\x7d` the matcher returns the substring after the *last* `\x7d`.  The
tag `a\x7db\x7dc` decomposes as `a\x7db` ++ `\x7d` ++ `c` with no
further `\x7d` in the final part, so the claim demands the answer `c`;
the code (`tag.split("\x7d", 1)[-1]`) instead returns everything after
the *first* `\x7d`, namely `b\x7dc`. -/
theorem C3_counterexample :
    ("a\x7db\x7dc" : String).toList = "a\x7db".toList ++ '\x7d' :: "c".toList ∧
    '\x7d' ∉ "c".toList ∧
    localname (some "a\x7db\x7dc") = "b\x7dc" ∧
    ("b\x7dc" : String) ≠ "c" := by
  refine ⟨by decide, by decide, by decide, by decide⟩

/-- Claim C3, amended: for every tag string containing `\x7d`, the
namespace-agnostic tag matcher returns exactly the substring after the
*first* `\x7d` (equivalently: writing the tag as `p ++ "\x7d" ++ q`
with `p` free of `\x7d`, it returns `q`); for every tag string without
`\x7d` it returns the tag unchanged; for empty or `None` input it
returns the empty string. -/
theorem C3_theorem :
    (∀ (s : String) (p q : List Char), s.toList = p ++ '\x7d' :: q → '\x7d' ∉ p →
        localname (some s) = String.mk q) ∧
    (∀ s : String, '\x7d' ∉ s.toList → localname (some s) = s) ∧
    localname none = "" ∧ localname (some "") = "" := by
  refine ⟨?_, ?_, rfl, rfl⟩
  · intro s p q hs hp
    have hmem : '\x7d' ∈ s.toList := by
      rw [hs]; exact List.mem_append_right p (List.mem_cons_self _ _)
    simp only [localname, if_pos hmem]
    rw [hs, dropThroughFirst_append '\x7d' p q hp]
  · intro s h
    simp only [localname, if_neg h]

/-- Claim C3, witness: the amended theorem evaluated on the qualified
tag `\x7buri\x7dname`, giving the local name `name`. -/
theorem C3_witness :
    localname (some "\x7buri\x7dname") = String.mk "name".toList :=
  C3_theorem.1 "\x7buri\x7dname" "\x7buri".toList "name".toList (by decide) (by decide)

/-! ## Claim C2 -/

/-- Claim C2: the locator returns the first element of the depth-first
pre-order listing that is an `item` containing a `rateName` descendant
with matching trimmed text (everything before it in that order fails
the condition); it returns `none` exactly when no element matches, and
in that case the run fails with the not-found error that names the
target rate.  Matching is case-sensitive: a feed carrying only the
lower-case `sarh` yields no match for `SARH`. -/
theorem C2_theorem :
    (∀ (root : XTree) (rate : String) (it : XTree),
        find_item_by_rate_name root rate = some it →
        ∃ l1 l2, root.iter = l1 ++ it :: l2 ∧ isMatchingItem it rate = true ∧
          ∀ el ∈ l1, isMatchingItem el rate = false) ∧
    (∀ (root : XTree) (rate : String),
        find_item_by_rate_name root rate = none ↔
          ∀ el ∈ root.iter, isMatchingItem el rate = false) ∧
    (∀ (now : String) (root : XTree) (werr : Option String),
        find_item_by_rate_name root TARGET_RATE_NAME = none →
        runMain now (Except.ok root) werr =
          RunOutcome.failedBeforeWrite
            ("Could not find <item> containing rateName=" ++ TARGET_RATE_NAME)) ∧
    find_item_by_rate_name lowerCaseTree "SARH" = none := by
  refine ⟨?_, ?_, ?_, by decide⟩
  · intro root rate it h
    exact find_first_split _ root.iter it h
  · intro root rate
    unfold find_item_by_rate_name
    rw [List.find?_eq_none]
    constructor
    · intro h el hel
      have := h el hel
      simpa using this
    · intro h el hel
      simp [h el hel]
  · intro now root werr h
    simp [runMain, pipeline, h]

/-- Claim C2, witness: on a concrete two-item feed where only the second
item carries `SARH`, the theorem yields the split around that item; and
on a feed with no match it yields the not-found outcome with the
message naming `SARH`. -/
theorem C2_witness :
    (∃ l1 l2, c2Root.iter = l1 ++ c2Item :: l2 ∧ isMatchingItem c2Item "SARH" = true ∧
      ∀ el ∈ l1, isMatchingItem el "SARH" = false) ∧
    runMain "T0" (Except.ok lowerCaseTree) none =
      RunOutcome.failedBeforeWrite
        ("Could not find <item> containing rateName=" ++ TARGET_RATE_NAME) :=
  ⟨C2_theorem.1 c2Root "SARH" c2Item (by decide),
   C2_theorem.2.2.1 "T0" lowerCaseTree none (by decide)⟩

/-! ## Claim C1 -/

/-- The loop of `find_observation_value` is the head of the candidates
contributed by the observations (skipping observations without a
`value` descendant), followed by the empty-text check on the first
candidate found. -/
theorem fovGo_eq (l : List XTree) :
    fovGo l = ((l.filterMap obsFirstValue).head?).bind stripNonempty := by
  induction l with
  | nil => rfl
  | cons obs rest ih =>
    simp only [fovGo, List.filterMap_cons, obsFirstValue]
    by_cases hobs : localname (some obs.tag) = "observation"
    · rw [if_pos hobs, if_pos hobs]
      cases hv : obs.iter.find? (fun v => decide (localname (some v.tag) = "value")) with
      | none => exact ih
      | some v => rfl
    · rw [if_neg hobs, if_neg hobs]
      exact ih

/-- Claim C1, counterexample.  In `cexItemC1` the first `observation`
descendant (`cexObs1`) contains no `value` descendant at all, so the
claim demands that no value be produced and the run fail; the code
instead keeps scanning and returns the value `7` found in the second
observation. -/
theorem C1_counterexample :
    cexItemC1.iter.find? (fun o => decide (localname (some o.tag) = "observation")) =
      some cexObs1 ∧
    cexObs1.iter.find? (fun v => decide (localname (some v.tag) = "value")) = none ∧
    find_observation_value cexItemC1 = some "7" := by
  refine ⟨by decide, by decide, by decide⟩

/-- Claim C1, amended: the value extractor scans the matched item's
observations in depth-first pre-order and returns the trimmed text of
the first `value` descendant of the first observation that has any
`value` descendant (observations without one are skipped); no value is
produced — and the run fails — when no observation contains a `value`,
or when the first such `value` has empty trimmed text. -/
theorem C1_theorem :
    (∀ item : XTree,
        find_observation_value item =
          ((item.iter.filterMap obsFirstValue).head?).bind stripNonempty) ∧
    (∀ (now : String) (root : XTree) (werr : Option String) (it : XTree),
        find_item_by_rate_name root TARGET_RATE_NAME = some it →
        find_observation_value it = none →
        ∃ m, runMain now (Except.ok root) werr = RunOutcome.failedBeforeWrite m) := by
  constructor
  · intro item
    exact fovGo_eq item.iter
  · intro now root werr it hit hfov
    simp only [runMain, pipeline, hit]
    cases hd : find_first_desc_text it "date" with
    | none => exact ⟨_, rfl⟩
    | some dcd =>
      dsimp only
      cases hpd : parse_date_to_yyyy_mm_dd dcd with
      | error m => exact ⟨m, rfl⟩
      | ok di =>
        dsimp only
        rw [hfov]
        exact ⟨_, rfl⟩

/-- Claim C1, witness: on a feed whose matched item carries an
observation with no value anywhere, the run fails before the write. -/
theorem C1_witness :
    ∃ m, runMain "T0" (Except.ok c1wRoot) none = RunOutcome.failedBeforeWrite m :=
  C1_theorem.2 "T0" c1wRoot none c1wItem (by decide) (by decide)

/-! ## Claim C4 -/

/-- The loop of `find_first_desc_text` is the head of the non-empty
stripped texts of the elements carrying the wanted local tag, in
pre-order; wanted-tag elements with empty text are passed over. -/
theorem ffdtGo_eq (wanted : String) (l : List XTree) :
    ffdtGo wanted l = (l.filterMap (tagText wanted)).head? := by
  induction l with
  | nil => rfl
  | cons el rest ih =>
    simp only [ffdtGo, List.filterMap_cons, tagText]
    by_cases htag : localname (some el.tag) = wanted
    · rw [if_pos htag, if_pos htag]
      by_cases htxt : pyStrip (el.text.getD "") = ""
      · rw [if_pos htxt, if_pos htxt]
        exact ih
      · rw [if_neg htxt, if_neg htxt]
        rfl
    · rw [if_neg htag, if_neg htag]
      exact ih

/-- Claim C4, counterexample.  In `cexItemC4` the first descendant with
local tag `date` is `cexDate1`, whose text strips to the empty string,
so the claim demands that the run fail; the code skips it and returns
the second date's text `2024-01-02`. -/
theorem C4_counterexample :
    cexItemC4.iter.find? (fun el => decide (localname (some el.tag) = "date")) =
      some cexDate1 ∧
    pyStrip (cexDate1.text.getD "") = "" ∧
    find_first_desc_text cexItemC4 "date" = some "2024-01-02" := by
  refine ⟨by decide, by decide, by decide⟩

/-- Claim C4, amended: the date extractor returns the trimmed text of
the first descendant (depth-first pre-order) whose local tag is `date`
*and* whose trimmed text is non-empty — descendants tagged `date` with
empty text are skipped — and the run fails exactly when no `date`
descendant has non-empty trimmed text. -/
theorem C4_theorem :
    (∀ (parent : XTree) (wanted : String),
        find_first_desc_text parent wanted = (parent.iter.filterMap (tagText wanted)).head?) ∧
    (∀ (now : String) (root : XTree) (werr : Option String) (it : XTree),
        find_item_by_rate_name root TARGET_RATE_NAME = some it →
        find_first_desc_text it "date" = none →
        runMain now (Except.ok root) werr =
          RunOutcome.failedBeforeWrite "dc:date not found in matched item") := by
  constructor
  · intro parent wanted
    exact ffdtGo_eq wanted parent.iter
  · intro now root werr it hit hd
    simp only [runMain, pipeline, hit]
    rw [hd]

/-- Claim C4, witness: a feed whose matched item has no `date`
descendant at all makes the run fail with the date error. -/
theorem C4_witness :
    runMain "T0" (Except.ok c4wRoot) none =
      RunOutcome.failedBeforeWrite "dc:date not found in matched item" :=
  C4_theorem.2 "T0" c4wRoot none c4wItem (by decide) (by decide)

/-- Fast path of the date normalizer: whenever the stripped input has
length at least 10 and `-` at positions 4 and 7, the result is the
first ten characters of the stripped input — the guard inspects nothing
else, so no digit or range check happens on this path. -/
theorem fastPath_take10 (s : String) (h : fastShape (pyStripList s.toList)) :
    parse_date_to_yyyy_mm_dd s = Except.ok (String.mk ((pyStripList s.toList).take 10)) := by
  have hne : pyStripList s.toList ≠ [] := by
    intro hnil
    rw [hnil] at h
    exact absurd h.1 (by decide)
  simp only [parse_date_to_yyyy_mm_dd]
  rw [if_neg hne, if_pos h]

/-! ## Claim C5 -/

/-- Claim C5, counterexample.  The input ` 024-01-15X` (leading space)
has length 11 and `-` at positions 4 and 7, so the claim demands the
first ten characters ` 024-01-15`; but the code strips first, the
stripped string `024-01-15X` no longer has the fast-path shape, and the
fallback ISO parse fails, so the normalizer raises instead of
returning anything. -/
theorem C5_counterexample :
    fastShape (" 024-01-15X".toList) ∧
    parse_date_to_yyyy_mm_dd " 024-01-15X" =
      Except.error "Invalid isoformat string: 024-01-15X" ∧
    parse_date_to_yyyy_mm_dd " 024-01-15X" ≠
      Except.ok (String.mk (" 024-01-15X".toList.take 10)) := by
  refine ⟨by decide, by rfl, fun h => Except.noConfusion h⟩

/-- Claim C5, amended: for every input string whose *stripped* form has
length at least 10 and `-` at positions 4 and 7, the date normalizer
returns exactly the first ten characters of the stripped input,
regardless of any trailing content and without a full parse. -/
theorem C5_theorem (s : String) (h : fastShape (pyStripList s.toList)) :
    parse_date_to_yyyy_mm_dd s = Except.ok (String.mk ((pyStripList s.toList).take 10)) :=
  fastPath_take10 s h

/-- Claim C5, witness: the amended theorem evaluated on
`2024-03-01T00:00:00Z`, whose first ten characters are `2024-03-01`. -/
theorem C5_witness :
    parse_date_to_yyyy_mm_dd "2024-03-01T00:00:00Z" =
      Except.ok (String.mk (("2024-03-01T00:00:00Z".toList).take 10)) := by
  have h := C5_theorem "2024-03-01T00:00:00Z" (by decide)
  simpa using h

/-! ## Claim C6 -/

/-- Claim C6, counterexample.  The input ` 2024-01-15` (leading space)
does not match the fast-path shape (its character at position 4 is
`4`), and it is not valid ISO-8601 — with or without the `Z`
substitution, which does not change it — so the claim demands a parse
error; the code strips the input first, after which the fast path
applies, and it returns `2024-01-15` with no error. -/
theorem C6_counterexample :
    ¬ fastShape (" 2024-01-15".toList) ∧
    zReplace (" 2024-01-15".toList) = " 2024-01-15".toList ∧
    fromisoformat " 2024-01-15" = none ∧
    parse_date_to_yyyy_mm_dd " 2024-01-15" = Except.ok "2024-01-15" := by
  refine ⟨by decide, by decide, by decide, by rfl⟩

/-- Claim C6, amended: for every input whose *stripped* form is
non-empty and does not match the fast-path shape, the date normalizer
replaces every `Z` in the stripped input (not only a trailing one) with
`+00:00`, parses the result as a full ISO-8601 timestamp, and returns
its date portion, raising a parse error exactly when that substituted
string is not valid ISO-8601.  The example `2024-01-15T10:30:00Z` still
yields `2024-01-15`, but through the fast path (its characters at
positions 4 and 7 are `-`), not the fallback. -/
theorem C6_theorem :
    (∀ s : String, pyStripList s.toList ≠ [] → ¬ fastShape (pyStripList s.toList) →
        parse_date_to_yyyy_mm_dd s =
          match fromisoformat (String.mk (zReplace (pyStripList s.toList))) with
          | some d => Except.ok d
          | none =>
            Except.error
              ("Invalid isoformat string: " ++ String.mk (zReplace (pyStripList s.toList)))) ∧
    parse_date_to_yyyy_mm_dd "2024-01-15T10:30:00Z" = Except.ok "2024-01-15" ∧
    fromisoformat (String.mk (zReplace ("15.01.2024".toList))) = none ∧
    parse_date_to_yyyy_mm_dd "15.01.2024" =
      Except.error "Invalid isoformat string: 15.01.2024" := by
  refine ⟨?_, by rfl, by decide, by rfl⟩
  intro s hne hfs
  simp only [parse_date_to_yyyy_mm_dd]
  rw [if_neg hne, if_neg hfs]

/-- Claim C6, witness: the amended theorem evaluated on `15.01.2024`,
where the fallback ISO parse of the substituted string fails. -/
theorem C6_witness :
    parse_date_to_yyyy_mm_dd "15.01.2024" =
      match fromisoformat (String.mk (zReplace (pyStripList ("15.01.2024".toList)))) with
      | some d => Except.ok d
      | none =>
        Except.error
          ("Invalid isoformat string: " ++
            String.mk (zReplace (pyStripList ("15.01.2024".toList)))) :=
  C6_theorem.1 "15.01.2024" (by decide) (by decide)

/-! ## Claim C7 -/

/-- Claim C7: the value normalizer is exactly float-parsing after
replacing every comma with a period; `1,25` and `1.25` both yield the
number 1.25, and it fails exactly when the comma-replaced string is not
a valid Python float literal (for example `abc`).  Floats are modelled
as exact rationals; the claim's example values are exactly
representable, so no rounding is involved. -/
theorem C7_theorem :
    (∀ s : String, value_normalize s = pyFloat (commaToDot s)) ∧
    value_normalize "1,25" = some (PyFloat.finite (5 / 4)) ∧
    value_normalize "1.25" = some (PyFloat.finite (5 / 4)) ∧
    value_normalize "abc" = none ∧
    (∀ s : String, value_normalize s = none ↔ pyFloat (commaToDot s) = none) := by
  have h54 : (5 / 4 : ℚ) = mkRat 5 4 := by norm_num
  refine ⟨fun s => rfl, by rw [h54]; rfl, by rw [h54]; rfl, by rfl, fun s => Iff.rfl⟩

/-! ## Claim C10 -/

/-- Claim C10, counterexample.  The claim quantifies over raw inputs:
every string of length at least 10 with `-` at positions 4 and 7 is
said to return its first ten characters.  The input ` 999-12-34X`
(leading space) has that raw shape, so the claim demands ` 999-12-34`;
but the code strips first, the stripped `999-12-34X` no longer has the
fast-path shape, and the fallback ISO parse raises — no ten-character
prefix is returned. -/
theorem C10_counterexample :
    fastShape (" 999-12-34X".toList) ∧
    parse_date_to_yyyy_mm_dd " 999-12-34X" =
      Except.error "Invalid isoformat string: 999-12-34X" ∧
    parse_date_to_yyyy_mm_dd " 999-12-34X" ≠
      Except.ok (String.mk (" 999-12-34X".toList.take 10)) := by
  refine ⟨by decide, by rfl, fun h => Except.noConfusion h⟩

/-- Claim C10, amended: the fast path performs no digit or range
validation, but it runs on the *stripped* input: for every string whose
stripped form has length at least 10 and `-` at positions 4 and 7, the
normalizer returns the first ten characters of the stripped input even
when they are not digits or not a calendar date — `abcd-ef-ghij` yields
`abcd-ef-gh` and `2024-99-99` yields `2024-99-99`, although the ISO
parser itself rejects `2024-99-99` — and a full run on a well-formed
feed carrying the date text `2024-99-99` succeeds, writing that
malformed date into the output record without error. -/
theorem C10_theorem :
    (∀ s : String, fastShape (pyStripList s.toList) →
        parse_date_to_yyyy_mm_dd s = Except.ok (String.mk ((pyStripList s.toList).take 10))) ∧
    parse_date_to_yyyy_mm_dd "abcd-ef-ghij" = Except.ok "abcd-ef-gh" ∧
    parse_date_to_yyyy_mm_dd "2024-99-99" = Except.ok "2024-99-99" ∧
    fromisoformat "2024-99-99" = none ∧
    runMain "2025-01-01T00:00:00+00:00" (Except.ok c10Tree) none =
      RunOutcome.success
        ⟨"2025-01-01T00:00:00+00:00", XML_URL, TARGET_RATE_NAME, "2024-99-99",
          PyFloat.finite (3 / 2)⟩ := by
  have h32 : (3 / 2 : ℚ) = mkRat 3 2 := by norm_num
  refine ⟨fun s h => fastPath_take10 s h, by rfl, by rfl, by decide, by rw [h32]; rfl⟩

/-- Claim C10, witness: the amended universal evaluated on
`1111-22-33garbage` — not a calendar date, arbitrary trailing content —
returning its first ten characters `1111-22-33`. -/
theorem C10_witness :
    parse_date_to_yyyy_mm_dd "1111-22-33garbage" =
      Except.ok (String.mk ((pyStripList ("1111-22-33garbage".toList)).take 10)) :=
  C10_theorem.1 "1111-22-33garbage" (by decide)

/-! ## Claims C8 and C9 -/

/-- The extraction pipeline succeeds exactly when every stage succeeds:
item located, date found and normalized, value found and parsed. -/
theorem pipeline_ok_iff (root : XTree) :
    (∃ x, pipeline root = Except.ok x) ↔ stagesOkTree root := by
  constructor
  · rintro ⟨x, hx⟩
    unfold pipeline at hx
    cases hfi : find_item_by_rate_name root TARGET_RATE_NAME with
    | none => rw [hfi] at hx; exact Except.noConfusion hx
    | some it =>
      rw [hfi] at hx; dsimp only at hx
      cases hd : find_first_desc_text it "date" with
      | none => rw [hd] at hx; exact Except.noConfusion hx
      | some d =>
        rw [hd] at hx; dsimp only at hx
        cases hpd : parse_date_to_yyyy_mm_dd d with
        | error m => rw [hpd] at hx; exact Except.noConfusion hx
        | ok di =>
          rw [hpd] at hx; dsimp only at hx
          cases hv : find_observation_value it with
          | none => rw [hv] at hx; exact Except.noConfusion hx
          | some v =>
            rw [hv] at hx; dsimp only at hx
            cases hq : value_normalize v with
            | none => rw [hq] at hx; exact Except.noConfusion hx
            | some q =>
              exact ⟨it, hfi, d, hd, ⟨di, hpd⟩, v, hv, q, hq⟩
  · rintro ⟨it, hfi, d, hd, ⟨di, hpd⟩, v, hv, q, hq⟩
    unfold pipeline
    rw [hfi]; dsimp only
    rw [hd]; dsimp only
    rw [hpd]; dsimp only
    rw [hv]; dsimp only
    rw [hq]
    exact ⟨(di, q), rfl⟩

/-- Claim C8: whenever a stage before the file write fails the run ends
with exit code 1, the write is never attempted and the file is not
written (so an existing output file is untouched) — in particular when
no item with the target rate name exists; and the output file is
written (in full) exactly on a successful (exit 0) run. -/
theorem C8_theorem (now : String) (fetched : Except String XTree) (werr : Option String) :
    ((∃ m, runMain now fetched werr = RunOutcome.failedBeforeWrite m) →
        exitCode (runMain now fetched werr) = 1 ∧
        writeAttempted (runMain now fetched werr) = false ∧
        fileWritten (runMain now fetched werr) = false) ∧
    (fileWritten (runMain now fetched werr) = true ↔
        ∃ p, runMain now fetched werr = RunOutcome.success p) ∧
    (∀ root : XTree, fetched = Except.ok root →
        find_item_by_rate_name root TARGET_RATE_NAME = none →
        runMain now fetched werr =
          RunOutcome.failedBeforeWrite
            ("Could not find <item> containing rateName=" ++ TARGET_RATE_NAME) ∧
        writeAttempted (runMain now fetched werr) = false) ∧
    (exitCode (runMain now fetched werr) = 0 → fileWritten (runMain now fetched werr) = true) := by
  refine ⟨?_, ?_, ?_, ?_⟩
  · rintro ⟨m, hm⟩
    rw [hm]
    exact ⟨rfl, rfl, rfl⟩
  · cases hr : runMain now fetched werr with
    | success p => simp [fileWritten]
    | failedBeforeWrite m => simp [fileWritten]
    | failedAtWrite m => simp [fileWritten]
  · intro root hf hn
    subst hf
    refine ⟨?_, ?_⟩ <;> simp [runMain, pipeline, hn, writeAttempted]
  · cases hr : runMain now fetched werr with
    | success p => intro _; rfl
    | failedBeforeWrite m => intro h; exact absurd h (by simp [exitCode])
    | failedAtWrite m => intro h; exact absurd h (by simp [exitCode])

/-- Claim C8, witness: on a feed without the target rate name the run
fails before the write, with exit code 1 and the file untouched. -/
theorem C8_witness :
    runMain "T0" (Except.ok lowerCaseTree) none =
      RunOutcome.failedBeforeWrite
        ("Could not find <item> containing rateName=" ++ TARGET_RATE_NAME) ∧
    writeAttempted (runMain "T0" (Except.ok lowerCaseTree) none) = false ∧
    exitCode (runMain "T0" (Except.ok lowerCaseTree) none) = 1 ∧
    fileWritten (runMain "T0" (Except.ok lowerCaseTree) none) = false := by
  have hall := C8_theorem "T0" (Except.ok lowerCaseTree) none
  have h3 := hall.2.2.1 lowerCaseTree rfl (by decide)
  have h1 := hall.1 ⟨_, h3.1⟩
  exact ⟨h3.1, h3.2, h1.1, h1.2.2⟩

/-- Claim C9: every run exits with code 0 or 1; code 0 holds exactly
when the run succeeds, i.e. exactly when the fetch/parse yields a tree,
every extraction stage on it succeeds and the write succeeds; code 1
holds exactly when a line consisting of the failure marker and the
exception message is written to the error stream (the single top-level
handler). -/
theorem C9_theorem (now : String) (fetched : Except String XTree) (werr : Option String) :
    (exitCode (runMain now fetched werr) = 0 ∨ exitCode (runMain now fetched werr) = 1) ∧
    (exitCode (runMain now fetched werr) = 0 ↔
        ∃ p, runMain now fetched werr = RunOutcome.success p) ∧
    (exitCode (runMain now fetched werr) = 0 ↔
        (∃ root, fetched = Except.ok root ∧ stagesOkTree root) ∧ werr = none) ∧
    (exitCode (runMain now fetched werr) = 1 ↔
        ∃ m, stderrLine (runMain now fetched werr) = some ("❌ Error: " ++ m)) := by
  cases fetched with
  | error m =>
    simp [runMain, exitCode, stderrLine]
  | ok root =>
    cases hp : pipeline root with
    | error m =>
      have hnotok : ¬ stagesOkTree root := by
        intro hst
        obtain ⟨x, hx⟩ := (pipeline_ok_iff root).mpr hst
        rw [hp] at hx
        exact Except.noConfusion hx
      simp [runMain, hp, exitCode, stderrLine, hnotok]
    | ok pr =>
      obtain ⟨di, vq⟩ := pr
      have hok : stagesOkTree root := (pipeline_ok_iff root).mp ⟨(di, vq), hp⟩
      cases werr with
      | none => simp [runMain, hp, exitCode, stderrLine, hok]
      | some m => simp [runMain, hp, exitCode, stderrLine, hok]
